import Mathlib

/-!
Verification of the trainee-management application (`app.py`) against its
natural-language specification.  The Python source is shallowly embedded:
dictionaries become structures (key presence modelled with `Option` where the
code tests membership), Python strings become `String`/`List Char`, and each
relevant Python function becomes an executable Lean definition that mirrors
the source line by line.  All definitions are computable so that claims can be
checked on concrete inputs.
-/

namespace GS

/-! ## Python string primitives

The app runs on CPython/Linux: `str.strip`, `str.upper`, `str.lower`,
`str.replace`, `str.lstrip` and `os.path.join` (posixpath) are modelled below.
`upper`/`lower` are modelled on ASCII plus the accented Latin letters that
occur in the application's enumerated values (é è ê ë à â ä î ï ô ö ù û ü ç);
other characters are left unchanged. -/

/-- Characters stripped by Python `str.strip()` (ASCII whitespace). -/
def pyIsWs (c : Char) : Bool :=
  c = ' ' || c = '\t' || c = '\n' || c = '\r' || c = '\x0b' || c = '\x0c'

/-- Python `str.strip()` on a list of characters. -/
def pyStripL (l : List Char) : List Char :=
  ((l.dropWhile pyIsWs).reverse.dropWhile pyIsWs).reverse

/-- Python `str.strip()`. -/
def pyStrip (s : String) : String := ⟨pyStripL s.data⟩

/-- Python `str.upper()` on one character (ASCII + French accented letters). -/
def pyUpperChar (c : Char) : Char :=
  if 'a' ≤ c ∧ c ≤ 'z' then Char.ofNat (c.toNat - 32)
  else if c = 'é' then 'É' else if c = 'è' then 'È'
  else if c = 'ê' then 'Ê' else if c = 'ë' then 'Ë'
  else if c = 'à' then 'À' else if c = 'â' then 'Â' else if c = 'ä' then 'Ä'
  else if c = 'î' then 'Î' else if c = 'ï' then 'Ï'
  else if c = 'ô' then 'Ô' else if c = 'ö' then 'Ö'
  else if c = 'ù' then 'Ù' else if c = 'û' then 'Û' else if c = 'ü' then 'Ü'
  else if c = 'ç' then 'Ç' else c

/-- Python `str.lower()` on one character (ASCII + French accented letters). -/
def pyLowerChar (c : Char) : Char :=
  if 'A' ≤ c ∧ c ≤ 'Z' then Char.ofNat (c.toNat + 32)
  else if c = 'É' then 'é' else if c = 'È' then 'è'
  else if c = 'Ê' then 'ê' else if c = 'Ë' then 'ë'
  else if c = 'À' then 'à' else if c = 'Â' then 'â' else if c = 'Ä' then 'ä'
  else if c = 'Î' then 'î' else if c = 'Ï' then 'ï'
  else if c = 'Ô' then 'ô' else if c = 'Ö' then 'ö'
  else if c = 'Ù' then 'ù' else if c = 'Û' then 'û' else if c = 'Ü' then 'ü'
  else if c = 'Ç' then 'ç' else c

/-- Python `s.strip().upper()`, the normalisation used for statuses and
training types throughout the source. -/
def pyStripUpper (s : String) : String := ⟨(pyStripL s.data).map pyUpperChar⟩

/-- Python `s.strip().lower()`, the normalisation used by the legacy
value-mapping functions. -/
def pyStripLower (s : String) : String := ⟨(pyStripL s.data).map pyLowerChar⟩

/-! ## File reference tokenizer (`_tokenize_path` / `_detokenize_path`)

`_detokenize_path` (app.py:1173-1175) is
`token.replace("..","").lstrip("/").replace("\\","/")` joined under
`PERSIST_DIR` with `os.path.join`. -/

/-- Python `str.replace("..", "")`: remove every non-overlapping occurrence of
`".."`, scanning left to right. -/
def rmdd : List Char → List Char
  | '.' :: '.' :: rest => rmdd rest
  | c :: rest => c :: rmdd rest
  | [] => []

/-- Python `str.lstrip("/")`. -/
def lstripSlashL (l : List Char) : List Char := l.dropWhile (fun c => c = '/')

/-- Python `str.replace("\\", "/")` (single-character replace is a map). -/
def bsToSlashL (l : List Char) : List Char :=
  l.map (fun c => if c = '\\' then '/' else c)

/-- The fixed storage root (`PERSIST_DIR`, default `"/data"`, app.py:124). -/
def PERSIST_DIR : String := "/data"

/-- `posixpath.join(root, b)` for a two-argument call: if `b` is absolute it
replaces `root` entirely; otherwise it is appended with a `/` separator. -/
def posixJoinL (root b : List Char) : List Char :=
  if b.head? = some '/' then b
  else if root = [] ∨ root.getLast? = some '/' then root ++ b
  else root ++ '/' :: b

/-- `_detokenize_path` (app.py:1173-1175):
`os.path.join(PERSIST_DIR, (token or "").replace("..","").lstrip("/").replace("\\","/"))`. -/
def _detokenize_path (token : String) : String :=
  ⟨posixJoinL PERSIST_DIR.data (bsToSlashL (lstripSlashL (rmdd token.data)))⟩

/-! ## Data model

A document slot is a JSON object; the code tests key *presence* on it
(`"accept" not in d`, `"files" not in d`, …), so each field is an `Option`.
A `files` value that is present but not a list is treated by every consumer
exactly like an absent one (`isinstance` checks), so both are modelled as
`none`. -/

structure Doc where
  key : Option String
  label : Option String
  accept : Option String
  status : Option String
  comment : Option String
  file : Option String
  files : Option (List String)
  deriving Repr, DecidableEq

/-- A canonical trainee record.  The code reads its scalar fields with
`t.get(k) or ""` (absent and `""` are indistinguishable), so they are plain
`String`s; `no_permis` is read through `bool(...)`; `documents` is read with
`t.get("documents") or []`. -/
structure Trainee where
  id : String := ""
  personal_id : String := ""
  last_name : String := ""
  first_name : String := ""
  email : String := ""
  phone : String := ""
  comment : String := ""
  cnaps : String := ""
  convention_status : String := ""
  test_fr_status : String := ""
  dossier_status : String := ""
  financement_status : String := ""
  vae_status : String := ""
  hosting_status : String := ""
  documents : List Doc := []
  public_token : String := ""
  created_at : String := ""
  updated_at : String := ""
  birth_date : String := ""
  birth_city : String := ""
  birth_country : String := ""
  nationality : String := ""
  address : String := ""
  zip_code : String := ""
  city : String := ""
  carte_vitale : String := ""
  pre_number : String := ""
  no_permis : Bool := false
  deriving Repr, DecidableEq

/-- A legacy trainee record (old `stagiaires` shape).  All its fields are read
with `st.get(...)`, so presence is an `Option`. -/
structure OldStagiaire where
  id : Option String := none
  nom : Option String := none
  prenom : Option String := none
  email : Option String := none
  telephone : Option String := none
  commentaire : Option String := none
  cnaps : Option String := none
  convention : Option String := none
  test_francais : Option String := none
  dossier : Option String := none
  financement : Option String := none
  vae : Option String := none
  hebergement : Option String := none
  documents : List Doc := []
  public_token : Option String := none
  created_at : Option String := none
  updated_at : Option String := none
  deriving Repr, DecidableEq

/-- A session record.  `trainees`/`stagiaires` key presence is tested by the
normaliser, and `_session_get` distinguishes absent/`None`/`""` from a
populated value, hence the `Option` fields (a present non-list `trainees`
value is treated like an absent one by every consumer and is modelled as
`none`; a present `None`/`""` `training_type` falls back like an absent one
and is modelled as `some ""` / `none` equivalently). -/
structure Session where
  id : String := ""
  training_type : Option String := none
  type_formation : Option String := none
  trainees : Option (List Trainee) := none
  stagiaires : Option (List OldStagiaire) := none
  deriving Repr, DecidableEq

/-- The persisted store: `{"sessions": [...]}`. -/
structure Data where
  sessions : List Session
  deriving Repr, DecidableEq

/-- Python truthiness of an optional string (`None` and `""` are falsy). -/
def otruthy : Option String → Bool
  | some s => s ≠ ""
  | none => false

/-- `x or fallback` for an optional string. -/
def orDefault (v : Option String) (fallback : String) : String :=
  if otruthy v then v.getD "" else fallback

/-- `_session_get(s, "training_type", "")` (app.py:345-365): prefer a
populated canonical key, then the populated legacy key `type_formation`,
else the fallback `""`. -/
def sessionTrainingType (s : Session) : String :=
  match s.training_type with
  | some v => if v ≠ "" then v else
      (match s.type_formation with
       | some w => if w ≠ "" then w else ""
       | none => "")
  | none =>
      (match s.type_formation with
       | some w => if w ≠ "" then w else ""
       | none => "")

/-! ## Legacy value maps (app.py:404-446) -/

/-- `_map_convention_to_enum`. -/
def _map_convention_to_enum (v : Option String) : String :=
  let v := pyStripLower (v.getD "")
  if v = "signée" ∨ v = "signee" ∨ v = "signed" then "signed"
  else if ("signature".data <:+: v.data) ∨ v = "en cours de signature" ∨ v = "signing" then "signing"
  else "soon"

/-- `_map_testfr_to_enum`. -/
def _map_testfr_to_enum (v : Option String) : String :=
  let v := pyStripLower (v.getD "")
  if v = "validé" ∨ v = "valide" ∨ v = "validated" then "validated"
  else if v = "relancé" ∨ v = "relance" ∨ v = "relancé(e)" ∨ v = "relancee" then "relance"
  else if v = "en cours" ∨ v = "in progress" ∨ v = "in_progress" ∨ v = "en_cours" then "in_progress"
  else "soon"

/-- `_map_financement_to_enum`. -/
def _map_financement_to_enum (v : Option String) : String :=
  let v := pyStripLower (v.getD "")
  if v = "validé" ∨ v = "valide" ∨ v = "validated" then "validated"
  else if ("validation".data <:+: v.data) ∨ v = "en cours de validation" ∨ v = "in_review" then "in_review"
  else "soon"

/-- `_map_vae_to_enum`. -/
def _map_vae_to_enum (v : Option String) : String :=
  let v := pyStripLower (v.getD "")
  if v = "validé" ∨ v = "valide" ∨ v = "validated" then "validated"
  else if v = "en cours" ∨ v = "in_progress" ∨ v = "in progress" then "in_progress"
  else "soon"

/-- `_map_hosting_to_enum`. -/
def _map_hosting_to_enum (v : Option String) : String :=
  let v := pyStripLower (v.getD "")
  if v = "réservé" ∨ v = "reserve" ∨ v = "reserved" then "reserved"
  else "unknown"

/-- `_convert_old_stagiaire_to_trainee` (app.py:380-401).  The fresh
identifier `"TRN-" + uuid.uuid4().hex[:8].upper()` generated when the legacy
record has no truthy `id` is passed in as `freshId`. -/
def _convert_old_stagiaire_to_trainee (st : OldStagiaire) (freshId : String) : Trainee :=
  { id := orDefault st.id freshId
    personal_id := orDefault st.id ""
    last_name := orDefault st.nom ""
    first_name := orDefault st.prenom ""
    email := orDefault st.email ""
    phone := orDefault st.telephone ""
    comment := orDefault st.commentaire ""
    cnaps := orDefault st.cnaps "INCONNU"
    convention_status := _map_convention_to_enum st.convention
    test_fr_status := _map_testfr_to_enum st.test_francais
    dossier_status := if st.dossier = some "complet" then "complete" else "incomplete"
    financement_status := _map_financement_to_enum st.financement
    vae_status := _map_vae_to_enum st.vae
    hosting_status := _map_hosting_to_enum st.hebergement
    documents := st.documents
    public_token := orDefault st.public_token ""
    created_at := orDefault st.created_at ""
    updated_at := orDefault st.updated_at "" }

/-! ## Conformity logic (app.py:455-503) -/

/-- `trainee_is_conform` (app.py:455-467). -/
def trainee_is_conform (t : Trainee) (training_type : String) : Bool :=
  if t.convention_status ≠ "signed" then false
  else if t.test_fr_status ≠ "validated" then false
  else if t.dossier_status ≠ "complete" then false
  else if t.financement_status ≠ "validated" then false
  else if training_type = "DIRIGEANT VAE" ∧ t.vae_status ≠ "validated" then false
  else true

/-- `_session_trainees_list` (app.py:368-377); `fids i` is the fresh id for
the `i`-th legacy record when conversion is needed. -/
def _session_trainees_list (s : Session) (fids : Nat → String) : List Trainee :=
  match s.trainees with
  | some l => l
  | none =>
    match s.stagiaires with
    | some sts => (sts.enum.map fun p => _convert_old_stagiaire_to_trainee p.2 (fids p.1))
    | none => []

/-- `session_is_conform` (app.py:470-475). -/
def session_is_conform (s : Session) (fids : Nat → String) : Bool :=
  let tt := sessionTrainingType s
  let trainees := _session_trainees_list s fids
  if trainees = [] then false
  else trainees.all (fun t => trainee_is_conform t tt)

/-- Result record of `compute_stats`. -/
structure Stats where
  total : Nat
  conform_count : Nat
  non_conform_count : Nat
  session_is_conform : Bool
  deriving Repr, DecidableEq

/-- `compute_stats` (app.py:493-503). -/
def compute_stats (s : Session) (fids : Nat → String) : Stats :=
  let tt := sessionTrainingType s
  let trainees := _session_trainees_list s fids
  let conform := (trainees.filter (fun t => trainee_is_conform t tt)).length
  { total := trainees.length
    conform_count := conform
    non_conform_count := trainees.length - conform
    session_is_conform := decide (trainees.length > 0) && decide (conform = trainees.length) }

/-! ## Document catalog (app.py:558-577) -/

/-- A catalog entry (`REQUIRED_DOCS` element). -/
structure DocDef where
  key : String
  label : String
  accept : String
  deriving Repr, DecidableEq

/-- `REQUIRED_DOCS["COMMON"]`. -/
def REQUIRED_DOCS_COMMON : List DocDef :=
  [ { key := "id", label := "Passeport OU Carte d’identité recto/verso OU Titre de séjour", accept := "application/pdf" },
    { key := "photo", label := "Photo d’identité officielle (photo de face de votre visage sur fond neutre)", accept := "image/jpeg,image/png" },
    { key := "carte_vitale_doc", label := "Carte vitale", accept := "application/pdf" },
    { key := "cnaps_doc", label := "Autorisation CNAPS ou Carte professionnelle CNAPS (en cours de validité)", accept := "application/pdf" } ]

/-- `REQUIRED_DOCS["A3P_ONLY"]`. -/
def REQUIRED_DOCS_A3P_ONLY : List DocDef :=
  [ { key := "permis", label := "Permis de conduire (obligatoire sauf si vous n’avez pas le permis)", accept := "application/pdf" },
    { key := "certif_med", label := "Certificat médical (-3 mois)", accept := "application/pdf" },
    { key := "assurance_rc", label := "Attestation d’assurance responsabilité civile", accept := "application/pdf" } ]

/-- `required_docs_for_training` (app.py:572-577). -/
def required_docs_for_training (training_type : String) : List DocDef :=
  REQUIRED_DOCS_COMMON ++
    (if pyStripUpper training_type = "A3P" then REQUIRED_DOCS_A3P_ONLY else [])

/-- The last document of `docs` whose `key` is `some k`, i.e. the entry the
dict comprehension `{d.get("key"): d for d in docs}` stores at key `k`
(later entries override earlier ones).  For the nonempty keys looked up by
the source, the truthiness filter `if ... d.get("key")` used by
`ensure_documents_schema_for_trainee` makes no difference. -/
def lookupKey : List Doc → String → Option Doc
  | [], _ => none
  | d :: rest, k =>
    match lookupKey rest k with
    | some r => some r
    | none => if d.key = some k then some d else none

/-! ## Schema of the document list (app.py:579-627) -/

/-- One field-defaulting pass of `ensure_documents_schema_for_trainee` over an
existing slot found in `by_key`; returns the patched slot and whether any
field was filled in. -/
def patchDoc (rd : DocDef) (d : Doc) : Doc × Bool :=
  ({ d with
      label := if otruthy d.label then d.label else some rd.label,
      accept := if d.accept = none then some rd.accept else d.accept,
      status := if d.status = none then some "NON DÉPOSÉ" else d.status,
      comment := if d.comment = none then some "" else d.comment,
      file := if d.file = none then some "" else d.file,
      files := if d.files = none then some [] else d.files },
   !otruthy d.label || d.accept = none || d.status = none ||
     d.comment = none || d.file = none || d.files = none)

/-- The fresh `NOT_SUBMITTED` slot synthesised for a required key with no
existing slot. -/
def freshDoc (rd : DocDef) : Doc :=
  { key := some rd.key, label := some rd.label, accept := some rd.accept,
    status := some "NON DÉPOSÉ", comment := some "", file := some "",
    files := some [] }

/-- Whether the legacy slot key `"dom"` is present (`"dom" in by_key`). -/
def hasDomKey (docs : List Doc) : Bool :=
  docs.any (fun d => d.key = some "dom")

/-- `ensure_documents_schema_for_trainee` restricted to the document list
(the function mutates only `t["documents"]` and returns `changed`):
for every required key, keep and field-default the existing slot or
synthesise a fresh one; drop every other slot; flag `changed` when the legacy
`"dom"` slot was present. -/
def ensureDocsList (docs : List Doc) (training_type : String) : List Doc × Bool :=
  let required := required_docs_for_training training_type
  let processed := required.map (fun rd =>
    match lookupKey docs rd.key with
    | some d => patchDoc rd d
    | none => (freshDoc rd, true))
  (processed.map Prod.fst, processed.any Prod.snd || hasDomKey docs)

/-- `ensure_documents_schema_for_trainee` (app.py:579-627) at the trainee
level. -/
def ensure_documents_schema_for_trainee (t : Trainee) (training_type : String) :
    Trainee × Bool :=
  ({ t with documents := (ensureDocsList t.documents training_type).1 },
   (ensureDocsList t.documents training_type).2)

/-- The slot `ensureDocsList` emits for one required key (patched existing
slot or fresh slot). -/
def stepDoc (docs : List Doc) (rd : DocDef) : Doc :=
  match lookupKey docs rd.key with
  | some d => (patchDoc rd d).1
  | none => freshDoc rd

/-- A slot that already satisfies everything the field-defaulting pass of
`ensure_documents_schema_for_trainee` checks for key `k`: matching key,
truthy label, and all optional fields present. -/
def GoodSlot (k : String) (d : Doc) : Prop :=
  d.key = some k ∧ otruthy d.label = true ∧ d.accept ≠ none ∧ d.status ≠ none ∧
    d.comment ≠ none ∧ d.file ≠ none ∧ d.files ≠ none

/-! ## Dossier completeness evaluator (app.py:632-695) -/

/-- `dossier_is_complete` (app.py:632-661). -/
def dossier_is_complete (trainee : Trainee) (training_type : String) : Bool :=
  let docs := trainee.documents
  if docs = [] then false
  else
    let tt := pyStripUpper training_type
    let no_permis := trainee.no_permis
    (required_docs_for_training training_type).all (fun rd =>
      if tt = "A3P" ∧ rd.key = "permis" ∧ no_permis then true
      else
        match lookupKey docs rd.key with
        | none => false
        | some d => pyStripUpper (d.status.getD "") = "CONFORME")

/-- Count of decimal digits left by `re.sub(r"\D+", "", s)` (ASCII digits). -/
def countDigits (s : String) : Nat := (s.data.filter Char.isDigit).length

/-- Consume exactly `n` digits, returning the rest of the input. -/
def takeDigits : Nat → List Char → Option (List Char)
  | 0, l => some l
  | _ + 1, [] => none
  | n + 1, c :: l => if c.isDigit then takeDigits n l else none

/-- Consume one expected literal character. -/
def expectChar (c : Char) : List Char → Option (List Char)
  | [] => none
  | c' :: l => if c' = c then some l else none

/-- Tail of the registration-number pattern after the `PRE-`/`CAR-` prefix:
`\d{3}-\d{4}-\d{2}-\d{2}-\d{11,}$`.  The trailing `$` of `re.match` accepts
the end of the string or a single final newline; since the digit run is
maximal, backtracking inside `\d{11,}` can never help, so a greedy span is
exact. -/
def preTail (l : List Char) : Bool :=
  match takeDigits 3 l with
  | none => false
  | some l =>
    match expectChar '-' l with
    | none => false
    | some l =>
      match takeDigits 4 l with
      | none => false
      | some l =>
        match expectChar '-' l with
        | none => false
        | some l =>
          match takeDigits 2 l with
          | none => false
          | some l =>
            match expectChar '-' l with
            | none => false
            | some l =>
              match takeDigits 2 l with
              | none => false
              | some l =>
                match expectChar '-' l with
                | none => false
                | some l =>
                  let ds := l.takeWhile Char.isDigit
                  let rest := l.dropWhile Char.isDigit
                  decide (ds.length ≥ 11) && (rest = [] || rest = ['\n'])

/-- `re.match(r"^(PRE|CAR)-\d{3}-\d{4}-\d{2}-\d{2}-\d{11,}$", pre)` applied to
`pre = raw.strip().upper().replace(" ", "")` (app.py:687-688). -/
def preNumberOk (raw : String) : Bool :=
  let pre := ((pyStripL raw.data).map pyUpperChar).filter (fun c => c ≠ ' ')
  match pre with
  | 'P' :: 'R' :: 'E' :: '-' :: l => preTail l
  | 'C' :: 'A' :: 'R' :: '-' :: l => preTail l
  | _ => false

/-- `infos_is_complete` (app.py:666-691). -/
def infos_is_complete (t : Trainee) : Bool :=
  if pyStrip t.birth_date = "" then false
  else if pyStrip t.birth_city = "" then false
  else if pyStrip t.birth_country = "" then false
  else if pyStrip t.nationality = "" then false
  else if pyStrip t.address = "" then false
  else if pyStrip t.zip_code = "" then false
  else if pyStrip t.city = "" then false
  else if countDigits t.carte_vitale ≠ 15 then false
  else if ¬ preNumberOk t.pre_number then false
  else true

/-- `dossier_is_complete_total` (app.py:693-695). -/
def dossier_is_complete_total (trainee : Trainee) (training_type : String) : Bool :=
  infos_is_complete trainee && dossier_is_complete trainee training_type

/-! ## Session schema normalisation (app.py:477-490) -/

/-- The body of the `normalize_sessions_schema` loop for one session:
synthesise the canonical `trainees` container when absent (converting any
legacy `stagiaires` element-by-element) and drop the legacy container,
flagging `changed` when either step did something.  (When `trainees` is
absent and `stagiaires` is too, writing `stagiaires := none` is a no-op, so
the three cases below are exactly the source's two sequential `if`s.) -/
def normSession (fids : Nat → String) (s : Session) : Session × Bool :=
  match s.trainees, s.stagiaires with
  | some _, none => (s, false)
  | some _, some _ => ({ s with stagiaires := none }, true)
  | none, _ =>
    ({ s with trainees := some (_session_trainees_list s fids), stagiaires := none }, true)

/-- `normalize_sessions_schema` (app.py:477-490); `fids i j` is the fresh id
generated for the `j`-th legacy trainee of the `i`-th session when a
conversion needs one. -/
def normalize_sessions_schema (fids : Nat → Nat → String) (data : Data) : Data × Bool :=
  let processed := data.sessions.enum.map (fun p => normSession (fids p.1) p.2)
  ({ sessions := processed.map Prod.fst }, processed.any Prod.snd)

/-- Document-slot alignment applied to every trainee of a canonical session
(each handler runs `ensure_documents_schema_for_trainee` on the trainee it
touches; this applies it across a session). -/
def ensureSession (s : Session) : Session × Bool :=
  match s.trainees with
  | none => (s, false)
  | some l =>
    let tt := sessionTrainingType s
    let processed := l.map (fun t => ensure_documents_schema_for_trainee t tt)
    ({ s with trainees := some (processed.map Prod.fst) }, processed.any Prod.snd)

/-- The full normalisation step of the claim: container/field normalisation
(`normalize_sessions_schema`) followed by document-slot alignment
(`ensure_documents_schema_for_trainee`) for every trainee. -/
def normalizeFull (fids : Nat → Nat → String) (data : Data) : Data × Bool :=
  let pass1 := normalize_sessions_schema fids data
  let processed := pass1.1.sessions.map ensureSession
  ({ sessions := processed.map Prod.fst }, pass1.2 || processed.any Prod.snd)

/-! ## Document slot operations

The admin upload handler (app.py:1219-1240) and the public upload handler
(app.py:2474-2497) run the identical per-slot update on the slot whose key
matches; the admin delete handler (app.py:1278-1300) runs the clear below. -/

/-- The legacy single-`file` migration performed before appending:
`files` (or `[]` when absent/not a list), plus the stripped legacy `file`
value when it is nonempty and not already in the list. -/
def migratedFiles (d : Doc) : List String :=
  let cur := d.files.getD []
  let old := pyStrip (d.file.getD "")
  if old ≠ "" ∧ old ∉ cur then cur ++ [old] else cur

/-- The per-slot body of the upload handlers: append the new token, keep the
first file as the legacy `file` field, move an untouched slot to
`"A CONTRÔLER"`, and respell the legacy `"A CONTROLER"` status. -/
def submitDocUpdate (d : Doc) (token : String) : Doc :=
  let files := migratedFiles d ++ [token]
  let file := files.headD ""
  let cur := pyStripUpper (d.status.getD "")
  let status1 :=
    if cur = "" ∨ cur = "NON DÉPOSÉ" ∨ cur = "NON DEPOSE" ∨ cur = "NON_DEPOSE"
    then some "A CONTRÔLER" else d.status
  let status2 := if status1 = some "A CONTROLER" then some "A CONTRÔLER" else status1
  { d with files := some files, file := some file, status := status2 }

/-- The review states of the document slot state machine, recovered from a
stored status string the way the source compares them (`strip().upper()`;
both spellings of the under-review status occur in stored data and are
recognised by the upload handlers). -/
inductive DocState
  | notSubmitted
  | underReview
  | compliant
  | nonCompliant
  | other
  deriving Repr, DecidableEq

/-- Classification of a stored status value into the abstract slot state. -/
def stateOf (status : Option String) : DocState :=
  let u := pyStripUpper (status.getD "")
  if u = "" ∨ u = "NON DÉPOSÉ" ∨ u = "NON DEPOSE" ∨ u = "NON_DEPOSE" then .notSubmitted
  else if u = "A CONTRÔLER" ∨ u = "A CONTROLER" then .underReview
  else if u = "CONFORME" then .compliant
  else if u = "NON CONFORME" then .nonCompliant
  else .other

/-- The tokens the admin delete handler removes from storage: the truthy
entries of a nonempty `files` list, else the stripped legacy `file` value
when nonempty (app.py:1279-1294). -/
def clearDocLegacyTokens (d : Doc) : List String :=
  let tok := pyStrip (d.file.getD "")
  if tok ≠ "" then [tok] else []

/-- All stored-content tokens deleted by the admin delete handler. -/
def clearDocTokens (d : Doc) : List String :=
  match d.files with
  | some l => if l ≠ [] then l.filter (fun x => x ≠ "") else clearDocLegacyTokens d
  | none => clearDocLegacyTokens d

/-- The slot reset performed by the admin delete handler (app.py:1296-1300):
`file`/`files` emptied, status back to `"NON DÉPOSÉ"`; the reviewer comment is
kept (the source comments `on garde le commentaire`). -/
def clearDocUpdate (d : Doc) : Doc :=
  { d with file := some "", files := some [], status := some "NON DÉPOSÉ" }

/-! ## Public self-service profile update (app.py:2369-2422)

The handler iterates over the JSON payload of `request.get_json`.  A payload
value can be any JSON value, and the source's `else` branch
(app.py:2409-2411) stores a non-null, non-string value *verbatim* in the
trainee record, so the profile fields touched by this handler are modelled
as JSON values (`JVal`), not as strings.  The subsequent completeness
evaluation reads such a field through the `(t.get(k) or "")` guard: a falsy
non-string reads as `""`, while a truthy non-string raises
(`.strip()`/`re.sub` on a non-string), aborting the handler before anything
is persisted — modelled by `Option`. -/

/-- A JSON value as delivered by `request.get_json` (numbers are modelled as
integers; objects, which behave like arrays for everything this handler
does, are not needed by the claims). -/
inductive JVal
  | jnull
  | jstr (s : String)
  | jbool (b : Bool)
  | jnum (n : Int)
  | jarr (elems : List JVal)

/-- Python truthiness of a JSON value (`bool(v)`). -/
def jtruthy : JVal → Bool
  | .jnull => false
  | .jstr s => s ≠ ""
  | .jbool b => b
  | .jnum n => n ≠ 0
  | .jarr l => !l.isEmpty

/-- Reading a stored JSON value the way the completeness checks do:
`(x or "")` yields `""` for a falsy value and `x` itself otherwise, and the
result is then used as a string — a truthy non-string raises
(`AttributeError`/`TypeError`), modelled as `none`. -/
def jreadGuard (v : JVal) : Option String :=
  if jtruthy v then
    match v with
    | .jstr s => some s
    | _ => none
  else some ""

/-- A trainee record whose nine self-service profile fields hold raw JSON
values (the shape `public_infos_update` can actually produce); every other
field is as in `Trainee`. -/
structure TraineeJ where
  id : String := ""
  personal_id : String := ""
  last_name : String := ""
  first_name : String := ""
  email : String := ""
  phone : String := ""
  comment : String := ""
  cnaps : String := ""
  convention_status : String := ""
  test_fr_status : String := ""
  dossier_status : String := ""
  financement_status : String := ""
  vae_status : String := ""
  hosting_status : String := ""
  documents : List Doc := []
  public_token : String := ""
  created_at : String := ""
  updated_at : String := ""
  birth_date : JVal := .jnull
  birth_city : JVal := .jnull
  birth_country : JVal := .jnull
  nationality : JVal := .jnull
  address : JVal := .jnull
  zip_code : JVal := .jnull
  city : JVal := .jnull
  carte_vitale : JVal := .jnull
  pre_number : JVal := .jnull
  no_permis : Bool := false

/-- The document/waiver part of a `TraineeJ` as a `Trainee`:
`dossier_is_complete` reads only `trainee["documents"]` and
`trainee["no_permis"]` (app.py:637-661), so evaluating it on this projection
is exact. -/
def TraineeJ.docFields (t : TraineeJ) : Trainee :=
  { documents := t.documents, no_permis := t.no_permis }

/-- One required-field check of `infos_is_complete` on a raw JSON value:
`if not (t.get(k) or "").strip(): return False` — a raise propagates, a
blank read returns `False` without evaluating the remaining checks. -/
def reqStep (v : JVal) (rest : Option Bool) : Option Bool :=
  match jreadGuard v with
  | none => none
  | some s => if pyStrip s = "" then some false else rest

/-- `infos_is_complete` (app.py:666-691) evaluated on a record whose profile
fields hold raw JSON values, in the source's evaluation order; `none` means
the Python function raises. -/
def infos_is_complete_j (t : TraineeJ) : Option Bool :=
  reqStep t.birth_date <|
  reqStep t.birth_city <|
  reqStep t.birth_country <|
  reqStep t.nationality <|
  reqStep t.address <|
  reqStep t.zip_code <|
  reqStep t.city <|
  match jreadGuard t.carte_vitale with
  | none => none
  | some s =>
    if countDigits s ≠ 15 then some false
    else
      match jreadGuard t.pre_number with
      | none => none
      | some p => some (preNumberOk p)

/-- `dossier_is_complete_total` (app.py:693-695) on a raw-JSON profile:
`infos_is_complete(trainee) and dossier_is_complete(trainee, ...)` with
Python short-circuiting; a raise in the first conjunct propagates. -/
def dossier_is_complete_total_j (t : TraineeJ) (training_type : String) : Option Bool :=
  match infos_is_complete_j t with
  | none => none
  | some b => some (b && dossier_is_complete t.docFields training_type)

/-- The `allowed` key set of `public_infos_update`. -/
def ALLOWED_INFO_KEYS : List String :=
  ["carte_vitale", "pre_number", "birth_date", "birth_city", "birth_country",
   "nationality", "address", "zip_code", "city", "no_permis"]

/-- The allowed keys that are string profile fields (all but `no_permis`). -/
def allowedStringInfoKeys : List String :=
  ["carte_vitale", "pre_number", "birth_date", "birth_city", "birth_country",
   "nationality", "address", "zip_code", "city"]

/-- Read one of the nine allowed profile fields. -/
def getInfoField (t : TraineeJ) (k : String) : JVal :=
  if k = "carte_vitale" then t.carte_vitale
  else if k = "pre_number" then t.pre_number
  else if k = "birth_date" then t.birth_date
  else if k = "birth_city" then t.birth_city
  else if k = "birth_country" then t.birth_country
  else if k = "nationality" then t.nationality
  else if k = "address" then t.address
  else if k = "zip_code" then t.zip_code
  else if k = "city" then t.city
  else .jnull

/-- Write one of the nine allowed profile fields (`t[k] = ...`). -/
def setInfoField (t : TraineeJ) (k : String) (v : JVal) : TraineeJ :=
  if k = "carte_vitale" then { t with carte_vitale := v }
  else if k = "pre_number" then { t with pre_number := v }
  else if k = "birth_date" then { t with birth_date := v }
  else if k = "birth_city" then { t with birth_city := v }
  else if k = "birth_country" then { t with birth_country := v }
  else if k = "nationality" then { t with nationality := v }
  else if k = "address" then { t with address := v }
  else if k = "zip_code" then { t with zip_code := v }
  else if k = "city" then { t with city := v }
  else t

/-- One iteration of the `public_infos_update` payload loop (app.py:2392-2411):
skip unknown keys, cast `no_permis` to bool, skip `None`, store a non-blank
string trimmed (skip a blank one), and store any other value verbatim
(the source's final `else: t[k] = v`). -/
def applyInfoEntry (t : TraineeJ) (kv : String × JVal) : TraineeJ :=
  if kv.1 ∉ ALLOWED_INFO_KEYS then t
  else if kv.1 = "no_permis" then { t with no_permis := jtruthy kv.2 }
  else
    match kv.2 with
    | .jnull => t
    | .jstr s =>
      let vv := pyStrip s
      if vv = "" then t else setInfoField t kv.1 (.jstr vv)
    | v => setInfoField t kv.1 v

/-- `public_infos_update` (app.py:2369-2422) restricted to the trainee
record: apply the payload entries in order, then recompute `dossier_status`
with the evaluator and stamp `updated_at`; when the evaluator raises (truthy
non-string in a profile field) the handler aborts before `save_data`, so
nothing is persisted (`none`). -/
def public_infos_update (t : TraineeJ) (payload : List (String × JVal))
    (training_type now : String) : Option TraineeJ :=
  let t1 := payload.foldl applyInfoEntry t
  match dossier_is_complete_total_j t1 training_type with
  | none => none
  | some b =>
    some { t1 with
           dossier_status := if b then "complete" else "incomplete",
           updated_at := now }

/-! ## Concrete fixtures

Sample records used as inputs of the concrete parts of the verification
(counterexamples and witnesses).  They are data, not embeddings of source
code. -/

/-- A slot whose review status is `"CONFORME"`. -/
def conformeSlot (k : String) : Doc :=
  { key := some k, label := some k, accept := some "application/pdf",
    status := some "CONFORME", comment := some "", file := some "", files := some [] }

/-- A slot still in the initial `"NON DÉPOSÉ"` state. -/
def nonDeposeSlot (k : String) : Doc :=
  { key := some k, label := some k, accept := some "application/pdf",
    status := some "NON DÉPOSÉ", comment := some "", file := some "", files := some [] }

/-- A trainee with a fully valid profile (15-digit health-insurance number,
well-formed registration number) and no documents. -/
def profileBase : Trainee :=
  { birth_date := "1990-01-01", birth_city := "Paris", birth_country := "France",
    nationality := "française", address := "1 rue de la Paix", zip_code := "75001",
    city := "Paris", carte_vitale := "1 23 45 67 890 123 45",
    pre_number := "PRE-083-2025-12-01-20250000000" }

/-- `profileBase` with a 14-digit health-insurance number. -/
def profile14 : Trainee := { profileBase with carte_vitale := "12345678901234" }

/-- `profileBase` with a 16-digit health-insurance number. -/
def profile16 : Trainee := { profileBase with carte_vitale := "1234567890123456" }

/-- An A3P trainee with the driving-license waiver set: every required slot
`"CONFORME"` except `permis` at `"NON DÉPOSÉ"`, valid profile. -/
def waiverTrainee : Trainee :=
  { profileBase with
    no_permis := true,
    documents :=
      [conformeSlot "id", conformeSlot "photo", conformeSlot "carte_vitale_doc",
       conformeSlot "cnaps_doc", nonDeposeSlot "permis", conformeSlot "certif_med",
       conformeSlot "assurance_rc"] }

/-- A trainee whose administrative statuses are all validated. -/
def conformTrainee : Trainee :=
  { convention_status := "signed", test_fr_status := "validated",
    dossier_status := "complete", financement_status := "validated" }

/-- `conformTrainee` without a validated funding status. -/
def nonFundedTrainee : Trainee := { conformTrainee with financement_status := "soon" }

/-- A canonical session with three trainees, one of which lacks validated
funding. -/
def statsSession : Session :=
  { id := "S1", training_type := some "APS",
    trainees := some [conformTrainee, conformTrainee, nonFundedTrainee] }

/-- The legacy trainee record of the spec's migration example. -/
def legacyStagiaire : OldStagiaire :=
  { convention := some "signée", test_francais := some "validé", dossier := some "complet" }

/-- A reviewed non-compliant slot carrying a reviewer comment and two files. -/
def reviewedSlot : Doc :=
  { key := some "cnaps_doc", label := some "CNAPS", accept := some "application/pdf",
    status := some "NON CONFORME", comment := some "illisible", file := some "",
    files := some ["up/a.pdf", "up/b.pdf"] }

/-- An already-empty slot (no files, blank legacy field). -/
def emptySlot : Doc := nonDeposeSlot "id"

/-- A canonical session with no trainees. -/
def emptySession : Session :=
  { id := "S0", training_type := some "APS", trainees := some [] }

/-- A trainee record (raw-JSON profile shape) with a fully populated string
profile. -/
def profileJ : TraineeJ :=
  { birth_date := .jstr "1990-01-01", birth_city := .jstr "Paris",
    birth_country := .jstr "France", nationality := .jstr "française",
    address := .jstr "1 rue de la Paix", zip_code := .jstr "75001",
    city := .jstr "Paris", carte_vitale := .jstr "1 23 45 67 890 123 45",
    pre_number := .jstr "PRE-083-2025-12-01-20250000000" }

/-! ## Theorems -/

/-- C1: the claim says no caller-supplied reference can resolve outside the
storage root.  The code orders its sanitisation steps wrongly — backslashes
are turned into slashes only *after* leading slashes are stripped — so the
reference `"\etc\passwd"` resolves to the absolute path `/etc/passwd`,
outside `PERSIST_DIR`: `os.path.join` discards the root when its second
argument is absolute.  This contradicts the sanitisation's evident intent
(and the spec's security requirement), so it is a code bug. -/
theorem C1_resolver_escapes_storage_root :
    _detokenize_path "\\etc\\passwd" = "/etc/passwd" ∧
    ¬ ((PERSIST_DIR ++ "/").data <+: (_detokenize_path "\\etc\\passwd").data) ∧
    ¬ (PERSIST_DIR.data <+: (_detokenize_path "\\etc\\passwd").data) := by
  decide

/-- C2 counterexample: the claim says resolving `"../../etc/passwd"` and
`"/etc/passwd"` fails with `InvalidReference`.  The resolver is a total
function with no failure path: both inputs are sanitised and a storage path
is returned, so neither resolution fails. -/
theorem C2_resolve_never_fails :
    _detokenize_path "../../etc/passwd" = "/data/etc/passwd" ∧
    _detokenize_path "/etc/passwd" = "/data/etc/passwd" := by
  decide

/-- C2 (amended): resolving a reference containing parent-directory segments
or a leading slash does not fail; the resolver strips `".."` substrings and
leading slashes and re-roots the result under the storage root, so both
example inputs resolve to `PERSIST_DIR/etc/passwd`. -/
theorem C2_resolve_sanitises_and_reroots :
    (PERSIST_DIR ++ "/").data <+: (_detokenize_path "../../etc/passwd").data ∧
    (PERSIST_DIR ++ "/").data <+: (_detokenize_path "/etc/passwd").data ∧
    _detokenize_path "../../etc/passwd" = PERSIST_DIR ++ "/etc/passwd" ∧
    _detokenize_path "/etc/passwd" = PERSIST_DIR ++ "/etc/passwd" := by
  decide

/-- C3 counterexample: the claim says the legacy `"complet"` flag is
discarded and `dossier_status` recomputed by the evaluator.  Converting the
spec's own example record (which has no documents) yields
`dossier_status = "complete"` copied from the legacy flag, while the
evaluator on the converted record returns incomplete — the flag was copied,
not recomputed. -/
theorem C3_dossier_status_copied_from_legacy_flag :
    (_convert_old_stagiaire_to_trainee legacyStagiaire "TRN-AB12CD34").convention_status
        = "signed" ∧
    (_convert_old_stagiaire_to_trainee legacyStagiaire "TRN-AB12CD34").test_fr_status
        = "validated" ∧
    (_convert_old_stagiaire_to_trainee legacyStagiaire "TRN-AB12CD34").dossier_status
        = "complete" ∧
    dossier_is_complete_total
        (_convert_old_stagiaire_to_trainee legacyStagiaire "TRN-AB12CD34") "APS" = false := by
  decide

/-- C3 (amended): a legacy record with convention `"signée"`, test_francais
`"validé"` and dossier `"complet"` normalises to `convention_status =
"signed"`, `test_fr_status = "validated"`, and a `dossier_status` *copied*
from the legacy flag (`"complete"` exactly when the legacy value is
`"complet"`); the conversion does not run the completeness evaluator. -/
theorem C3_legacy_conversion_copies_flags :
    (∀ st : OldStagiaire, ∀ fid : String,
      (_convert_old_stagiaire_to_trainee st fid).convention_status
          = _map_convention_to_enum st.convention ∧
      (_convert_old_stagiaire_to_trainee st fid).test_fr_status
          = _map_testfr_to_enum st.test_francais ∧
      (_convert_old_stagiaire_to_trainee st fid).dossier_status
          = (if st.dossier = some "complet" then "complete" else "incomplete")) ∧
    _map_convention_to_enum (some "signée") = "signed" ∧
    _map_testfr_to_enum (some "validé") = "validated" ∧
    (_convert_old_stagiaire_to_trainee legacyStagiaire "TRN-AB12CD34").dossier_status
        = "complete" := by
  exact ⟨fun st fid => ⟨rfl, rfl, rfl⟩, by decide, by decide, by decide⟩

/-- C4 counterexample: the claim says the clear operation clears the reviewer
comment.  Clearing a reviewed slot carrying the comment `"illisible"` resets
files and status but keeps the comment (the source deliberately keeps it:
`on garde le commentaire`). -/
theorem C4_clear_keeps_comment :
    (clearDocUpdate reviewedSlot).comment = some "illisible" ∧
    (clearDocUpdate reviewedSlot).comment ≠ some "" ∧
    (clearDocUpdate reviewedSlot).status = some "NON DÉPOSÉ" ∧
    (clearDocUpdate reviewedSlot).files = some [] := by
  decide

/-- C4 (amended): the clear operation removes all of the slot's (truthy) file
references, resets the status to the initial `"NON DÉPOSÉ"` state and the
`file`/`files` fields, and errors on nothing — an already-empty slot simply
yields no tokens to delete — but it keeps the reviewer comment unchanged. -/
theorem C4_clear_resets_slot :
    (∀ d : Doc,
      (clearDocUpdate d).files = some [] ∧
      (clearDocUpdate d).file = some "" ∧
      (clearDocUpdate d).status = some "NON DÉPOSÉ" ∧
      (clearDocUpdate d).comment = d.comment ∧
      (∀ l, d.files = some l → l ≠ [] → clearDocTokens d = l.filter (fun x => x ≠ "")) ∧
      (d.files = some [] → pyStrip (d.file.getD "") = "" → clearDocTokens d = [])) ∧
    clearDocTokens reviewedSlot = ["up/a.pdf", "up/b.pdf"] ∧
    clearDocTokens emptySlot = [] := by
  refine ⟨fun d => ⟨rfl, rfl, rfl, rfl, ?_, ?_⟩, by decide, by decide⟩
  · intro l hl hne
    simp [clearDocTokens, hl, hne]
  · intro hl hf
    simp [clearDocTokens, clearDocLegacyTokens, hl, hf]

/-- C5: submitting a file always appends the new reference to the slot's
file list (after the legacy single-`file` migration), moves the slot to the
under-review state exactly when it was in the initial not-submitted state
(both handlers treat the accent-less legacy spelling `"A CONTROLER"` as the
same under-review state and canonicalise it), and leaves a `"CONFORME"` or
`"NON CONFORME"` status string untouched. -/
theorem C5_submit_appends_and_guards_status :
    ∀ (d : Doc) (tok : String),
      (submitDocUpdate d tok).files = some (migratedFiles d ++ [tok]) ∧
      stateOf (submitDocUpdate d tok).status
        = (if stateOf d.status = DocState.notSubmitted then DocState.underReview
           else stateOf d.status) ∧
      (stateOf (submitDocUpdate d tok).status ≠ stateOf d.status →
        stateOf d.status = DocState.notSubmitted) ∧
      ((pyStripUpper (d.status.getD "") = "CONFORME" ∨
        pyStripUpper (d.status.getD "") = "NON CONFORME") →
        (submitDocUpdate d tok).status = d.status) := by
  intro d tok
  have hmain : stateOf (submitDocUpdate d tok).status
      = (if stateOf d.status = DocState.notSubmitted then DocState.underReview
         else stateOf d.status) := by
    by_cases h1 : pyStripUpper (d.status.getD "") = "" ∨
        pyStripUpper (d.status.getD "") = "NON DÉPOSÉ" ∨
        pyStripUpper (d.status.getD "") = "NON DEPOSE" ∨
        pyStripUpper (d.status.getD "") = "NON_DEPOSE"
    · have hs : (submitDocUpdate d tok).status = some "A CONTRÔLER" := by
        simp [submitDocUpdate, h1]
      have hn : stateOf d.status = DocState.notSubmitted := by
        simp [stateOf, h1]
      rw [hs, hn]
      decide
    · by_cases h2 : d.status = some "A CONTROLER"
      · have hs : (submitDocUpdate d tok).status = some "A CONTRÔLER" := by
          simp [submitDocUpdate, h1, h2]
        have hd : stateOf d.status = DocState.underReview := by rw [h2]; decide
        rw [hs, hd]
        decide
      · have hs : (submitDocUpdate d tok).status = d.status := by
          simp [submitDocUpdate, h1, h2]
        have hd : stateOf d.status ≠ DocState.notSubmitted := by
          simp only [stateOf]
          rw [if_neg h1]
          split_ifs <;> simp
        rw [hs, if_neg hd]
  refine ⟨rfl, hmain, ?_, ?_⟩
  · intro hne
    by_cases h : stateOf d.status = DocState.notSubmitted
    · exact h
    · rw [hmain, if_neg h] at hne
      exact absurd rfl hne
  · intro h
    have hni : ¬ (pyStripUpper (d.status.getD "") = "" ∨
        pyStripUpper (d.status.getD "") = "NON DÉPOSÉ" ∨
        pyStripUpper (d.status.getD "") = "NON DEPOSE" ∨
        pyStripUpper (d.status.getD "") = "NON_DEPOSE") := by
      rcases h with h | h <;> rw [h] <;> decide
    have hna : d.status ≠ some "A CONTROLER" := by
      intro hc
      rw [hc] at h
      revert h
      decide
    simp [submitDocUpdate, hni, hna]

/-- C6: dossier (document) completeness requires, for every entry of the
program's required catalog, a slot with that key whose status normalises to
exactly `"CONFORME"` — a missing slot or an empty document list is never
complete — with the single waivable entry being the A3P driving license when
the trainee's `no_permis` flag is set; the concrete waiver trainee (permis at
`"NON DÉPOSÉ"`, everything else compliant, valid profile) is
dossier-complete. -/
theorem C6_document_completeness :
    (∀ (t : Trainee) (tt : String),
      dossier_is_complete t tt = true ↔
        (t.documents ≠ [] ∧
          ∀ rd ∈ required_docs_for_training tt,
            (pyStripUpper tt = "A3P" ∧ rd.key = "permis" ∧ t.no_permis = true) ∨
            (∃ d, lookupKey t.documents rd.key = some d ∧
              pyStripUpper (d.status.getD "") = "CONFORME"))) ∧
    dossier_is_complete_total waiverTrainee "A3P" = true ∧
    lookupKey waiverTrainee.documents "permis" = some (nonDeposeSlot "permis") ∧
    waiverTrainee.no_permis = true := by
  refine ⟨fun t tt => ?_, by decide, by decide, by decide⟩
  unfold dossier_is_complete
  by_cases hd : t.documents = []
  · simp [hd]
  · rw [if_neg hd]
    simp only [List.all_eq_true]
    constructor
    · intro h
      refine ⟨hd, fun rd hrd => ?_⟩
      have hb := h rd hrd
      by_cases hskip : pyStripUpper tt = "A3P" ∧ rd.key = "permis" ∧ t.no_permis = true
      · exact Or.inl hskip
      · right
        rw [if_neg hskip] at hb
        cases hlook : lookupKey t.documents rd.key with
        | none => rw [hlook] at hb; simp at hb
        | some d =>
          rw [hlook] at hb
          exact ⟨d, rfl, by simpa using hb⟩
    · rintro ⟨-, h⟩ rd hrd
      rcases h rd hrd with hskip | ⟨d, hlook, hst⟩
      · simp [hskip]
      · by_cases hskip : pyStripUpper tt = "A3P" ∧ rd.key = "permis" ∧ t.no_permis = true
        · simp [hskip]
        · simp [hskip, hlook, hst]

/-- C7: profile completeness holds iff the seven profile fields are non-blank
after trimming, the health-insurance number has exactly 15 digits after
stripping non-digits, and the registration number (upper-cased, spaces
removed) matches `(PRE|CAR)-NNN-YYYY-MM-DD-` followed by at least 11 digits;
`"PRE-083-2025-12-01-20250000000"` validates, `"PRE-83-2025-12-1-20250000000"`
does not, 15 insurance digits pass and 14 or 16 fail. -/
theorem C7_profile_completeness :
    (∀ t : Trainee,
      infos_is_complete t = true ↔
        (pyStrip t.birth_date ≠ "" ∧ pyStrip t.birth_city ≠ "" ∧
         pyStrip t.birth_country ≠ "" ∧ pyStrip t.nationality ≠ "" ∧
         pyStrip t.address ≠ "" ∧ pyStrip t.zip_code ≠ "" ∧
         pyStrip t.city ≠ "" ∧ countDigits t.carte_vitale = 15 ∧
         preNumberOk t.pre_number = true)) ∧
    preNumberOk "PRE-083-2025-12-01-20250000000" = true ∧
    preNumberOk "PRE-83-2025-12-1-20250000000" = false ∧
    countDigits profileBase.carte_vitale = 15 ∧
    infos_is_complete profileBase = true ∧
    infos_is_complete profile14 = false ∧
    infos_is_complete profile16 = false := by
  refine ⟨fun t => ?_, by decide, by decide, by decide, by decide, by decide, by decide⟩
  unfold infos_is_complete
  split_ifs <;> simp_all

/-- C9: a trainee is conform iff contract signed, language test validated,
dossier complete, funding validated and — only for the `"DIRIGEANT VAE"`
program — qualification validated; a session is conform iff it has at least
one trainee and all are conform (an empty trainee list is never conform);
the stats of a three-trainee session with one non-funded trainee are
`total=3, conform=2, non-conform=1, session not conform`. -/
theorem C9_conformity_aggregation :
    (∀ (t : Trainee) (tt : String),
      trainee_is_conform t tt = true ↔
        (t.convention_status = "signed" ∧ t.test_fr_status = "validated" ∧
         t.dossier_status = "complete" ∧ t.financement_status = "validated" ∧
         (tt = "DIRIGEANT VAE" → t.vae_status = "validated"))) ∧
    (∀ (s : Session) (fids : Nat → String),
      _session_trainees_list s fids = [] → session_is_conform s fids = false) ∧
    (∀ (s : Session) (fids : Nat → String) (l : List Trainee),
      s.trainees = some l →
        (session_is_conform s fids = true ↔
          (l ≠ [] ∧ ∀ t ∈ l, trainee_is_conform t (sessionTrainingType s) = true))) ∧
    (∀ fids : Nat → String,
      compute_stats statsSession fids =
        { total := 3, conform_count := 2, non_conform_count := 1,
          session_is_conform := false }) ∧
    (∀ fids : Nat → String, session_is_conform emptySession fids = false) := by
  refine ⟨fun t tt => ?_, fun s fids h => ?_, fun s fids l hl => ?_,
    fun fids => rfl, fun fids => rfl⟩
  · unfold trainee_is_conform
    split_ifs <;> simp_all
  · unfold session_is_conform
    simp [h]
  · have hlist : _session_trainees_list s fids = l := by
      unfold _session_trainees_list
      rw [hl]
    unfold session_is_conform
    rw [hlist]
    by_cases hne : l = []
    · simp [hne]
    · simp [hne, List.all_eq_true]

/-- C10 counterexample: the claim says a submitted value that is null, empty
or whitespace-only leaves the stored field unchanged and that only non-blank
trimmed strings overwrite.  Submitting the empty array `[]` for `address`
(an allowed key) hits the source's `else: t[k] = v` branch: the populated
address is overwritten verbatim with `[]`, a value every consumer's
`(t.get(k) or "")` guard reads as blank. -/
theorem C10_empty_array_overwrites_address :
    profileJ.address = JVal.jstr "1 rue de la Paix" ∧
    (public_infos_update profileJ [("address", JVal.jarr [])]
        "APS" "2026-10-12T00:00:00Z").map TraineeJ.address = some (JVal.jarr []) ∧
    jreadGuard (JVal.jarr []) = some "" ∧
    JVal.jarr [] ≠ JVal.jstr "1 rue de la Paix" := by
  refine ⟨rfl, rfl, rfl, fun h => ?_⟩
  cases h

/-- C10 (amended): the public self-service profile update ignores keys
outside the allowed set; a submitted JSON null or blank string never
overwrites an allowed string field, and a non-blank string is stored
trimmed; but a non-null, non-string JSON value submitted for an allowed
string field is stored verbatim (so a falsy value such as `[]` or `0`
overwrites the field with a blank-reading value); `dossier_status` is
recomputed by the evaluator on the updated record, and when that evaluation
raises (a truthy non-string now sits in a profile field) the handler aborts
and persists nothing. -/
theorem C10_public_update_amended :
    (∀ (t : TraineeJ) (k : String), k ∈ allowedStringInfoKeys →
      applyInfoEntry t (k, JVal.jnull) = t) ∧
    (∀ (t : TraineeJ) (k : String) (s : String),
      k ∈ allowedStringInfoKeys → pyStrip s = "" →
        applyInfoEntry t (k, JVal.jstr s) = t) ∧
    (∀ (t : TraineeJ) (k : String) (v : JVal),
      k ∉ ALLOWED_INFO_KEYS → applyInfoEntry t (k, v) = t) ∧
    (∀ (t : TraineeJ) (k : String) (s : String),
      k ∈ allowedStringInfoKeys → pyStrip s ≠ "" →
        getInfoField (applyInfoEntry t (k, JVal.jstr s)) k = JVal.jstr (pyStrip s)) ∧
    (∀ (t : TraineeJ) (k : String) (v : JVal),
      k ∈ allowedStringInfoKeys → v ≠ JVal.jnull → (∀ s, v ≠ JVal.jstr s) →
        getInfoField (applyInfoEntry t (k, v)) k = v) ∧
    (∀ (t : TraineeJ) (payload : List (String × JVal)) (tt now : String),
      public_infos_update t payload tt now
        = (dossier_is_complete_total_j (payload.foldl applyInfoEntry t) tt).map
            (fun b => { payload.foldl applyInfoEntry t with
                        dossier_status := if b then "complete" else "incomplete",
                        updated_at := now })) ∧
    public_infos_update profileJ [("address", JVal.jbool true)]
        "APS" "2026-10-12T00:00:00Z" = none := by
  refine ⟨fun t k hk => ?_, fun t k s hk hs => ?_, fun t k v hk => ?_,
    fun t k s hk hs => ?_, fun t k v hk h1 h2 => ?_, fun t payload tt now => ?_, rfl⟩
  · simp only [allowedStringInfoKeys, List.mem_cons, List.not_mem_nil, or_false] at hk
    rcases hk with rfl | rfl | rfl | rfl | rfl | rfl | rfl | rfl | rfl <;>
      simp [applyInfoEntry, ALLOWED_INFO_KEYS]
  · simp only [allowedStringInfoKeys, List.mem_cons, List.not_mem_nil, or_false] at hk
    rcases hk with rfl | rfl | rfl | rfl | rfl | rfl | rfl | rfl | rfl <;>
      simp [applyInfoEntry, ALLOWED_INFO_KEYS, hs]
  · simp [applyInfoEntry, hk]
  · simp only [allowedStringInfoKeys, List.mem_cons, List.not_mem_nil, or_false] at hk
    rcases hk with rfl | rfl | rfl | rfl | rfl | rfl | rfl | rfl | rfl <;>
      simp [applyInfoEntry, ALLOWED_INFO_KEYS, hs, setInfoField, getInfoField]
  · simp only [allowedStringInfoKeys, List.mem_cons, List.not_mem_nil, or_false] at hk
    rcases hk with rfl | rfl | rfl | rfl | rfl | rfl | rfl | rfl | rfl <;>
      cases v <;>
        first
          | exact absurd rfl h1
          | exact absurd rfl (h2 _)
          | simp [applyInfoEntry, ALLOWED_INFO_KEYS, setInfoField, getInfoField]
  · cases h : dossier_is_complete_total_j (payload.foldl applyInfoEntry t) tt <;>
      simp [public_infos_update, h]

/-! ## Idempotence of the normalisation step (C8) -/

theorem lookupKey_eq_some_key {l : List Doc} {k : String} {d : Doc}
    (h : lookupKey l k = some d) : d.key = some k := by
  induction l with
  | nil => simp [lookupKey] at h
  | cons a tl ih =>
    simp only [lookupKey] at h
    rcases htl : lookupKey tl k with _ | r
    · rw [htl] at h
      by_cases hk : a.key = some k
      · rw [if_pos hk] at h
        obtain rfl : a = d := by injection h
        exact hk
      · rw [if_neg hk] at h
        exact absurd h (by simp)
    · rw [htl] at h
      obtain rfl : r = d := by injection h
      exact ih htl

theorem lookupKey_map_of_key_ne (rds : List DocDef) (f : DocDef → Doc) (k : String)
    (hf : ∀ rd, (f rd).key = some rd.key) (hk : ∀ rd ∈ rds, rd.key ≠ k) :
    lookupKey (rds.map f) k = none := by
  induction rds with
  | nil => rfl
  | cons a tl ih =>
    simp only [List.map_cons, lookupKey]
    rw [ih (fun rd h => hk rd (List.mem_cons_of_mem _ h))]
    rw [hf a, if_neg]
    simp [hk a (List.mem_cons_self _ _)]

theorem lookupKey_map_of_mem {rds : List DocDef} {f : DocDef → Doc} {rd : DocDef}
    (hf : ∀ x, (f x).key = some x.key) (hnd : (rds.map DocDef.key).Nodup)
    (hm : rd ∈ rds) : lookupKey (rds.map f) rd.key = some (f rd) := by
  induction rds with
  | nil => cases hm
  | cons a tl ih =>
    simp only [List.map_cons, lookupKey]
    rcases List.mem_cons.mp hm with rfl | hm'
    · have hnone : lookupKey (tl.map f) rd.key = none := by
        apply lookupKey_map_of_key_ne _ _ _ hf
        intro x hx heq
        have : rd.key ∈ tl.map DocDef.key := heq ▸ List.mem_map_of_mem _ hx
        exact (List.nodup_cons.mp (by simpa using hnd)).1 this
      rw [hnone, hf, if_pos rfl]
    · rw [ih (List.Nodup.of_cons (by simpa using hnd)) hm']

theorem patchDoc_good {rd : DocDef} {d : Doc} (hk : d.key = some rd.key)
    (hl : rd.label ≠ "") : GoodSlot rd.key (patchDoc rd d).1 := by
  refine ⟨hk, ?_, ?_, ?_, ?_, ?_, ?_⟩ <;> simp only [patchDoc]
  · by_cases h : otruthy d.label = true
    · rw [if_pos h]; exact h
    · rw [if_neg h]; simp [otruthy, hl]
  · by_cases h : d.accept = none
    · rw [if_pos h]; simp
    · rw [if_neg h]; exact h
  · by_cases h : d.status = none
    · rw [if_pos h]; simp
    · rw [if_neg h]; exact h
  · by_cases h : d.comment = none
    · rw [if_pos h]; simp
    · rw [if_neg h]; exact h
  · by_cases h : d.file = none
    · rw [if_pos h]; simp
    · rw [if_neg h]; exact h
  · by_cases h : d.files = none
    · rw [if_pos h]; simp
    · rw [if_neg h]; exact h

theorem freshDoc_good {rd : DocDef} (hl : rd.label ≠ "") :
    GoodSlot rd.key (freshDoc rd) := by
  simp [GoodSlot, freshDoc, otruthy, hl]

theorem patchDoc_fixed {rd : DocDef} {d : Doc} (h : GoodSlot rd.key d) :
    patchDoc rd d = (d, false) := by
  obtain ⟨hk, hl, ha, hs, hc, hf, hfs⟩ := h
  simp [patchDoc, hl, ha, hs, hc, hf, hfs]

theorem stepDoc_key (docs : List Doc) (rd : DocDef) :
    (stepDoc docs rd).key = some rd.key := by
  unfold stepDoc
  cases h : lookupKey docs rd.key with
  | none => rfl
  | some d =>
    have := lookupKey_eq_some_key h
    simpa [patchDoc] using this

theorem stepDoc_good (docs : List Doc) {rd : DocDef} (hl : rd.label ≠ "") :
    GoodSlot rd.key (stepDoc docs rd) := by
  unfold stepDoc
  cases h : lookupKey docs rd.key with
  | none => exact freshDoc_good hl
  | some d => exact patchDoc_good (lookupKey_eq_some_key h) hl

theorem ensureDocsList_fst (docs : List Doc) (tt : String) :
    (ensureDocsList docs tt).1 = (required_docs_for_training tt).map (stepDoc docs) := by
  simp only [ensureDocsList, List.map_map]
  apply List.map_congr_left
  intro rd _
  unfold stepDoc
  cases h : lookupKey docs rd.key <;> simp [h]

theorem required_keys_nodup (tt : String) :
    ((required_docs_for_training tt).map DocDef.key).Nodup := by
  unfold required_docs_for_training
  by_cases h : pyStripUpper tt = "A3P"
  · rw [if_pos h]; decide
  · rw [if_neg h]; decide

theorem required_mem_facts (tt : String) :
    ∀ rd ∈ required_docs_for_training tt, rd.label ≠ "" ∧ rd.key ≠ "dom" := by
  unfold required_docs_for_training
  by_cases h : pyStripUpper tt = "A3P"
  · rw [if_pos h]; decide
  · rw [if_neg h]; decide

theorem ensureDocsList_idem (docs : List Doc) (tt : String) :
    ensureDocsList (ensureDocsList docs tt).1 tt = ((ensureDocsList docs tt).1, false) := by
  rw [ensureDocsList_fst docs tt]
  have hfacts := required_mem_facts tt
  have hnd := required_keys_nodup tt
  have hlook : ∀ rd ∈ required_docs_for_training tt,
      lookupKey ((required_docs_for_training tt).map (stepDoc docs)) rd.key
        = some (stepDoc docs rd) :=
    fun rd hm => lookupKey_map_of_mem (fun x => stepDoc_key docs x) hnd hm
  have hbody : ∀ rd ∈ required_docs_for_training tt,
      (match lookupKey ((required_docs_for_training tt).map (stepDoc docs)) rd.key with
       | some d => patchDoc rd d
       | none => (freshDoc rd, true)) = (stepDoc docs rd, false) := by
    intro rd hm
    rw [hlook rd hm]
    exact patchDoc_fixed (stepDoc_good docs (hfacts rd hm).1)
  simp only [ensureDocsList]
  rw [List.map_congr_left hbody]
  have hdom : hasDomKey ((required_docs_for_training tt).map (stepDoc docs)) = false := by
    unfold hasDomKey
    apply List.any_eq_false.mpr
    intro x hx
    obtain ⟨rd, hrd, rfl⟩ := List.mem_map.mp hx
    simp [stepDoc_key, (hfacts rd hrd).2]
  rw [hdom]
  refine Prod.ext ?_ ?_
  · rw [List.map_map]
    rfl
  · apply Bool.or_eq_false_iff.mpr
    refine ⟨?_, rfl⟩
    apply List.any_eq_false.mpr
    intro x hx
    obtain ⟨rd, hrd, rfl⟩ := List.mem_map.mp hx
    simp

theorem ensure_trainee_idem (t : Trainee) (tt : String) :
    ensure_documents_schema_for_trainee
        (ensure_documents_schema_for_trainee t tt).1 tt
      = ((ensure_documents_schema_for_trainee t tt).1, false) := by
  have h := ensureDocsList_idem t.documents tt
  simp [ensure_documents_schema_for_trainee, h]

theorem ensureSession_stagiaires (s : Session) :
    (ensureSession s).1.stagiaires = s.stagiaires := by
  unfold ensureSession
  cases h : s.trainees <;> simp [h]

theorem ensureSession_eq {s : Session} {l : List Trainee} (h : s.trainees = some l) :
    ensureSession s
      = ({ s with trainees := some ((l.map fun t =>
            ensure_documents_schema_for_trainee t (sessionTrainingType s)).map Prod.fst) },
         (l.map fun t =>
            ensure_documents_schema_for_trainee t (sessionTrainingType s)).any Prod.snd) := by
  simp only [ensureSession, h]

theorem ensureSession_idem (s : Session) {l : List Trainee}
    (h : s.trainees = some l) :
    ensureSession (ensureSession s).1 = ((ensureSession s).1, false) := by
  rw [ensureSession_eq h]
  dsimp only
  rw [ensureSession_eq rfl]
  have htt : sessionTrainingType
      { s with trainees := some ((l.map fun t =>
          ensure_documents_schema_for_trainee t (sessionTrainingType s)).map Prod.fst) }
      = sessionTrainingType s := rfl
  rw [htt]
  have hpt : ∀ t ∈ (l.map fun t =>
      ensure_documents_schema_for_trainee t (sessionTrainingType s)).map Prod.fst,
      ensure_documents_schema_for_trainee t (sessionTrainingType s)
        = (t, false) := by
    intro t ht
    rw [List.map_map] at ht
    obtain ⟨t0, _, rfl⟩ := List.mem_map.mp ht
    exact ensure_trainee_idem t0 (sessionTrainingType s)
  rw [List.map_congr_left hpt]
  refine Prod.ext ?_ ?_ <;> dsimp only
  · rw [List.map_map]
    have hc : (Prod.fst ∘ fun t : Trainee => (t, false)) = id := rfl
    rw [hc, List.map_id]
  · apply List.any_eq_false.mpr
    intro x hx
    obtain ⟨t, _, rfl⟩ := List.mem_map.mp hx
    simp

theorem normSession_fst_stagiaires (f : Nat → String) (s : Session) :
    (normSession f s).1.stagiaires = none := by
  unfold normSession
  cases htr : s.trainees <;> cases hst : s.stagiaires <;> simp [htr, hst]

theorem normSession_fst_trainees (f : Nat → String) (s : Session) :
    ∃ l, (normSession f s).1.trainees = some l := by
  unfold normSession
  cases htr : s.trainees <;> cases hst : s.stagiaires <;> simp [htr, hst]

theorem normSession_canonical {s : Session} {l : List Trainee}
    (h1 : s.trainees = some l) (h2 : s.stagiaires = none) (f : Nat → String) :
    normSession f s = (s, false) := by
  unfold normSession
  rw [h1, h2]

theorem normalizeFull_canonical (fids : Nat → Nat → String) (data : Data) :
    ∀ q ∈ (normalizeFull fids data).1.sessions,
      q.stagiaires = none ∧ (∃ l, q.trainees = some l) ∧ ensureSession q = (q, false) := by
  intro q hq
  simp only [normalizeFull, normalize_sessions_schema, List.map_map, List.mem_map] at hq
  obtain ⟨p, hp, rfl⟩ := hq
  obtain ⟨l0, h2⟩ := normSession_fst_trainees (fids p.1) p.2
  refine ⟨?_, ?_, ?_⟩
  · show ((ensureSession (normSession (fids p.1) p.2).1).1).stagiaires = none
    rw [ensureSession_stagiaires]
    exact normSession_fst_stagiaires _ _
  · show ∃ l, ((ensureSession (normSession (fids p.1) p.2).1).1).trainees = some l
    rw [ensureSession_eq h2]
    exact ⟨_, rfl⟩
  · show ensureSession ((ensureSession (normSession (fids p.1) p.2).1).1)
        = ((ensureSession (normSession (fids p.1) p.2).1).1, false)
    exact ensureSession_idem _ h2

theorem normalizeFull_of_canonical (f : Nat → Nat → String) (d0 : Data)
    (h : ∀ q ∈ d0.sessions,
      q.stagiaires = none ∧ (∃ l, q.trainees = some l) ∧ ensureSession q = (q, false)) :
    normalizeFull f d0 = (d0, false) := by
  have hp1 : normalize_sessions_schema f d0 = (d0, false) := by
    simp only [normalize_sessions_schema]
    have hmap : d0.sessions.enum.map (fun p => normSession (f p.1) p.2)
        = d0.sessions.enum.map (fun p => (p.2, false)) := by
      apply List.map_congr_left
      intro p hp
      have hq := h p.2 (List.snd_mem_of_mem_enum hp)
      obtain ⟨l, hl⟩ := hq.2.1
      exact normSession_canonical hl hq.1 _
    rw [hmap, List.map_map]
    have hc : (Prod.fst ∘ fun p : Nat × Session => (p.2, false)) = Prod.snd := rfl
    rw [hc, List.enum_map_snd]
    have hany : (d0.sessions.enum.map fun p => (p.2, false)).any Prod.snd = false := by
      apply List.any_eq_false.mpr
      intro x hx
      obtain ⟨q, _, rfl⟩ := List.mem_map.mp hx
      simp
    rw [hany]
  have hmap2 : d0.sessions.map ensureSession = d0.sessions.map (fun q => (q, false)) :=
    List.map_congr_left (fun q hq => (h q hq).2.2)
  simp only [normalizeFull]
  rw [hp1]
  dsimp only
  rw [hmap2, List.map_map]
  have hc2 : (Prod.fst ∘ fun q : Session => (q, false)) = id := rfl
  rw [hc2, List.map_id]
  have hany2 : (d0.sessions.map fun q => (q, false)).any Prod.snd = false := by
    apply List.any_eq_false.mpr
    intro x hx
    obtain ⟨q, _, rfl⟩ := List.mem_map.mp hx
    simp
  rw [hany2]
  rfl

/-- C8: the normalisation step (container/field normalisation together with
document-slot alignment) is idempotent: a second run on its own output
reports `changed = false` and returns the structure unchanged, whatever
fresh-identifier supply either run uses. -/
theorem C8_normalization_idempotent :
    ∀ (data : Data) (fids fids2 : Nat → Nat → String),
      normalizeFull fids2 (normalizeFull fids data).1
        = ((normalizeFull fids data).1, false) := by
  intro data fids fids2
  exact normalizeFull_of_canonical fids2 (normalizeFull fids data).1
    (normalizeFull_canonical fids data)

end GS
